import Mathlib

/-!
Shallow embedding of the Bonjour GCS discovery module
(MAVProxy/modules/mavproxy_discover.py).

The module drives a three-stage asynchronous resolution chain
(browse, resolve, query-address) through the host's select-based event
loop.  We model:

  * the host's event registration table `select_extra` as an association
    list from file descriptor numbers to (handler, service descriptor);
  * the connection registry `connected_GCS` as a list of
    (fullname, port) pairs;
  * the outbound connection list `mav_outputs`;
  * python exceptions (`KeyError` from `del`, `socket.error` from
    `inet_ntoa`) via `Except`, pairing the exception with the module
    state at the moment of the raise;
  * the console output as a list of printed lines, and two
    instrumentation counters recording how many table registrations and
    deregistrations were ever performed.

Machine-supplied descriptor numbers are modelled by a fresh-allocation
counter `nextFd`: each call into the discovery library returns a handle
whose `fileno()` is fresh.
-/

/-- An outbound MAVLink connection as produced by
`mavutil.mavlink_connection(address, baud=..., input=...)`. -/
structure MavlinkConnection where
  address : String
  baud : Nat
  input : Bool
deriving DecidableEq, Repr

/-- The pipeline stage a service descriptor belongs to, together with the
data bound into its callback closure at creation time.

  * `browse`: the continuous browse descriptor.
  * `resolve iface servName regType replyDomain`: created by
    `resolve_service`; `servName` is partially bound into
    `resolve_callback`.
  * `query iface fullname port servName`: created by `query_host`;
    `fullname` is the queried host (echoed back to the callback by the
    library), `port` and `servName` are partially bound into
    `query_record_callback`. -/
inductive DescKind where
  | browse : DescKind
  | resolve (iface : Nat) (servName regType replyDomain : String) : DescKind
  | query (iface : Nat) (fullname : String) (port : Nat) (servName : String) : DescKind
deriving DecidableEq, Repr

/-- A service descriptor handle (`sdRef`): its `fileno()` plus the stage
information that determines which callback its events are delivered to. -/
structure SdRef where
  fd : Nat
  kind : DescKind
deriving DecidableEq, Repr

/-- The handler stored in the event table; the module always registers
`pybonjour.DNSServiceProcessResult`. -/
inductive Handler where
  | processResult : Handler
deriving DecidableEq, Repr

abbrev TableEntry := Handler × SdRef

abbrev EventTable := List (Nat × TableEntry)

/-- Python exceptions that can escape a callback. -/
inductive ExnKind where
  | keyError (k : Nat) : ExnKind
  | socketError : ExnKind
deriving DecidableEq, Repr

/-- `pybonjour.kDNSServiceErr_NoError` -/
def kDNSServiceErr_NoError : Nat := 0

/-- `pybonjour.kDNSServiceFlagsAdd` -/
def kDNSServiceFlagsAdd : Nat := 2

/-- `BonjourModule.REG_TYPE` -/
def REG_TYPE : String := "_gcs._udp."

/-- `BonjourModule.BAUD` -/
def BAUD : Nat := 115200

/-- Python dict lookup `t[k]` on the event table. -/
def lookupEntry : EventTable → Nat → Option TableEntry
  | [], _ => none
  | (k, v) :: rest, j => if j = k then some v else lookupEntry rest j

/-- Python dict assignment `t[k] = v`: replaces an existing binding in
place, else appends. -/
def tableSet : EventTable → Nat → TableEntry → EventTable
  | [], k, v => [(k, v)]
  | (k0, v0) :: rest, k, v =>
    if k = k0 then (k, v) :: rest else (k0, v0) :: tableSet rest k v

/-- Python `del t[k]`: `some` of the remaining table when the key is
present, `none` (a `KeyError`) when it is absent. -/
def tableDel : EventTable → Nat → Option EventTable
  | [], _ => none
  | (k0, v0) :: rest, k =>
    if k = k0 then some rest
    else (tableDel rest k).map (fun r => (k0, v0) :: r)

/-- `socket.inet_ntoa`: decodes a raw 4-byte A-record payload to a dotted
decimal string; raises `socket.error` on any other length. -/
def inet_ntoa (rdata : List Nat) : Except ExnKind String :=
  if rdata.length = 4 then
    .ok (String.intercalate "." (rdata.map (fun b => toString b)))
  else
    .error .socketError

/-- The observable state of the module and of the host structures it
mutates.  `printed`, `connectCalls`, `regCount` and `deregCount` are
pure instrumentation logs of observable side effects. -/
structure ModuleState where
  selectExtra : EventTable
  connected_GCS : List (String × Nat)
  mavOutputs : List MavlinkConnection
  printed : List String
  connectCalls : List (String × String × Nat)
  regCount : Nat
  deregCount : Nat
  nextFd : Nat
deriving DecidableEq, Repr

/-- An exception escaping a callback, with the module state at the raise. -/
abbrev CbResult := Except (ExnKind × ModuleState) ModuleState

/-- `should_connect_to_GCS`: true iff no connection to this
(fullname, port) exists yet. -/
def should_connect_to_GCS (s : ModuleState) (fullname : String) (port : Nat) : Bool :=
  decide ((fullname, port) ∉ s.connected_GCS)

/-- `register_connection_to_GCS`: append (fullname, port) to the registry. -/
def register_connection_to_GCS (s : ModuleState) (fullname : String) (port : Nat) : ModuleState :=
  { s with connected_GCS := s.connected_GCS ++ [(fullname, port)] }

/-- `mavutil.mavlink_connection(address, baud=..., input=...)` -/
def mavlink_connection (address : String) (baud : Nat) (input : Bool) : MavlinkConnection :=
  { address := address, baud := baud, input := input }

/-- `connect_to_GCS`: format `'%s:%s' % (ip_address, port)`, open one
outbound connection with `baud=BAUD, input=False`, append it to
`mpstate.mav_outputs`, then record (fullname, port). -/
def connect_to_GCS (s : ModuleState) (fullname ip_address : String) (port : Nat) : ModuleState :=
  let address := ip_address ++ ":" ++ toString port
  let s1 := { s with
    mavOutputs := s.mavOutputs ++ [mavlink_connection address BAUD false],
    connectCalls := s.connectCalls ++ [(fullname, ip_address, port)] }
  register_connection_to_GCS s1 fullname port

/-- `deregister_service_descriptor`:
`del self.mpstate.select_extra[serviceDescriptor.fileno()]`; raises
`KeyError` when the key is absent. -/
def deregister_service_descriptor (s : ModuleState) (serviceDescriptor : SdRef) : CbResult :=
  match tableDel s.selectExtra serviceDescriptor.fd with
  | some t => .ok { s with selectExtra := t, deregCount := s.deregCount + 1 }
  | none => .error (.keyError serviceDescriptor.fd, s)

/-- `register_service_descriptor`:
`self.mpstate.select_extra[serviceDescriptor.fileno()] = (handler, serviceDescriptor)`. -/
def register_service_descriptor (s : ModuleState) (serviceDescriptor : SdRef) (handler : Handler) : ModuleState :=
  { s with
    selectExtra := tableSet s.selectExtra serviceDescriptor.fd (handler, serviceDescriptor),
    regCount := s.regCount + 1 }

/-- `resolve_service`: allocate a fresh resolve descriptor via
`pybonjour.DNSServiceResolve` (its callback closure binds the service
name) and register it. -/
def resolve_service (s : ModuleState) (iface_idx : Nat) (serv_name reg_type reply_domain : String) : ModuleState :=
  let resolve_sdRef : SdRef := ⟨s.nextFd, .resolve iface_idx serv_name reg_type reply_domain⟩
  register_service_descriptor { s with nextFd := s.nextFd + 1 } resolve_sdRef .processResult

/-- `query_host`: allocate a fresh A-record query descriptor via
`pybonjour.DNSServiceQueryRecord` (its callback closure binds port and
service name; the queried fullname is `host`) and register it. -/
def query_host (s : ModuleState) (iface_idx : Nat) (serv_name host : String) (port : Nat) : ModuleState :=
  let query_sdRef : SdRef := ⟨s.nextFd, .query iface_idx host port serv_name⟩
  register_service_descriptor { s with nextFd := s.nextFd + 1 } query_sdRef .processResult

/-- `browse_callback`: on error, return; on a non-add (removal) flag,
print a diagnostic and return; otherwise start the resolve stage. -/
def browse_callback (s : ModuleState) (_sdRef : SdRef)
    (flags _interfaceIndex errorCode : Nat)
    (serviceName regtype replyDomain : String) : CbResult :=
  if errorCode ≠ kDNSServiceErr_NoError then .ok s
  else if flags &&& kDNSServiceFlagsAdd = 0 then
    .ok { s with printed := s.printed ++ ["Service removed"] }
  else
    .ok (resolve_service s _interfaceIndex serviceName regtype replyDomain)

/-- `resolve_callback`: on success, deregister the resolve descriptor and
start the address query; on error, fall through (no action at all). -/
def resolve_callback (s : ModuleState) (sdRef : SdRef)
    (_flags interfaceIndex errorCode : Nat)
    (_fullname hosttarget : String) (port : Nat)
    (_txtRecord serviceName : String) : CbResult :=
  if errorCode = kDNSServiceErr_NoError then
    match deregister_service_descriptor s sdRef with
    | .error e => .error e
    | .ok s1 => .ok (query_host s1 interfaceIndex serviceName hosttarget port)
  else .ok s

/-- `query_record_callback`: on success, decode the address payload,
deregister the query descriptor, and if not already connected, connect
and print the confirmation line; on error, fall through. -/
def query_record_callback (s : ModuleState) (sdRef : SdRef)
    (_flags _interfaceIndex errorCode : Nat)
    (fullname : String) (_rrtype _rrclass : Nat)
    (rdata : List Nat) (_ttl port : Nat) (serviceName : String) : CbResult :=
  if errorCode = kDNSServiceErr_NoError then
    match inet_ntoa rdata with
    | .error k => .error (k, s)
    | .ok ip_address =>
      match deregister_service_descriptor s sdRef with
      | .error e => .error e
      | .ok s1 =>
        if should_connect_to_GCS s1 fullname port then
          let s2 := connect_to_GCS s1 fullname ip_address port
          .ok { s2 with printed := s2.printed ++
              ["Connected to " ++ serviceName ++ " at " ++ ip_address ++ ":" ++ toString port] }
        else .ok s1
  else .ok s

/-- `discover_services`: allocate the browse descriptor via
`pybonjour.DNSServiceBrowse(regtype=REG_TYPE, ...)` and register it. -/
def discover_services (s : ModuleState) : ModuleState :=
  let browse_sdRef : SdRef := ⟨s.nextFd, .browse⟩
  register_service_descriptor { s with nextFd := s.nextFd + 1 } browse_sdRef .processResult

/-- `BonjourModule.__init__` with a fresh host state
(`select_extra={}, mav_outputs=[]`): empty registry, start discovery,
print the load message. -/
def initState : ModuleState :=
  let s0 : ModuleState :=
    { selectExtra := [], connected_GCS := [], mavOutputs := [], printed := [],
      connectCalls := [], regCount := 0, deregCount := 0, nextFd := 0 }
  let s1 := discover_services s0
  { s1 with printed := s1.printed ++ ["Module discover loaded"] }

/-- One readiness event delivered by the host loop, carrying the data the
discovery library passes to the corresponding callback.

  * `browseEv flags errorCode serviceName regtype replyDomain iface`
  * `resolveEv fd flags iface errorCode fullname hosttarget port txt`
  * `queryEv fd flags iface errorCode rdata ttl` -/
inductive Event where
  | browseEv (flags errorCode : Nat) (serviceName regtype replyDomain : String) (iface : Nat) : Event
  | resolveEv (fd flags iface errorCode : Nat) (fullname hosttarget : String) (port : Nat) (txt : String) : Event
  | queryEv (fd flags iface errorCode : Nat) (rdata : List Nat) (ttl : Nat) : Event
deriving DecidableEq, Repr

/-- The host loop dispatching one readiness event: it invokes the handler
registered for the descriptor, which drains the pending protocol event
and calls the stage callback with the closure-bound arguments stored at
registration; events for unregistered descriptors never fire. -/
def stepEvent (s : ModuleState) (e : Event) : CbResult :=
  match e with
  | .browseEv flags errorCode serviceName regtype replyDomain iface =>
    browse_callback s ⟨0, .browse⟩ flags iface errorCode serviceName regtype replyDomain
  | .resolveEv fd flags iface errorCode fullname hosttarget port txt =>
    match lookupEntry s.selectExtra fd with
    | some (_, sd) =>
      match sd.kind with
      | .resolve _ servName _ _ =>
        resolve_callback s sd flags iface errorCode fullname hosttarget port txt servName
      | _ => .ok s
    | none => .ok s
  | .queryEv fd flags iface errorCode rdata ttl =>
    match lookupEntry s.selectExtra fd with
    | some (_, sd) =>
      match sd.kind with
      | .query _ fullname port servName =>
        query_record_callback s sd flags iface errorCode fullname 1 1 rdata ttl port servName
      | _ => .ok s
    | none => .ok s

/-- Run a trace of readiness events from a state; an escaping exception
aborts the run. -/
def runEvents (s : ModuleState) : List Event → CbResult
  | [] => .ok s
  | e :: es =>
    match stepEvent s e with
    | .ok s1 => runEvents s1 es
    | .error err => .error err

/-! ## Concrete scenario data

Scenario A of the spec: the browse stage reports an add for service
"MAVLink", the resolve stage succeeds with host `mavlink.local` and
port 14550, and the address query succeeds with the raw bytes of
192.168.1.50.  Descriptor numbers: the browse descriptor is fd 0, the
resolve descriptor fd 1, the query descriptor fd 2. -/

def trA : List Event :=
  [.browseEv 2 kDNSServiceErr_NoError "MAVLink" "_gcs._udp." "local." 0,
   .resolveEv 1 0 0 kDNSServiceErr_NoError "MAVLink._gcs._udp.local." "mavlink.local" 14550 "",
   .queryEv 2 0 0 kDNSServiceErr_NoError [192, 168, 1, 50] 120]

/-- The module state after the browse-add event of scenario A (the
resolve descriptor fd 1 is registered). -/
def stateB : ModuleState :=
  { selectExtra := [(0, (.processResult, ⟨0, .browse⟩)),
                    (1, (.processResult, ⟨1, .resolve 0 "MAVLink" "_gcs._udp." "local."⟩))],
    connected_GCS := [], mavOutputs := [], printed := ["Module discover loaded"],
    connectCalls := [], regCount := 2, deregCount := 0, nextFd := 2 }

/-- The module state after the browse-add and resolve-success events of
scenario A (the query descriptor fd 2 is registered). -/
def stateC : ModuleState :=
  { selectExtra := [(0, (.processResult, ⟨0, .browse⟩)),
                    (2, (.processResult, ⟨2, .query 0 "mavlink.local" 14550 "MAVLink"⟩))],
    connected_GCS := [], mavOutputs := [], printed := ["Module discover loaded"],
    connectCalls := [], regCount := 3, deregCount := 1, nextFd := 3 }

/-- The module state after the full scenario A trace `trA`. -/
def stateA : ModuleState :=
  { selectExtra := [(0, (.processResult, ⟨0, .browse⟩))],
    connected_GCS := [("mavlink.local", 14550)],
    mavOutputs := [{ address := "192.168.1.50:14550", baud := 115200, input := false }],
    printed := ["Module discover loaded", "Connected to MAVLink at 192.168.1.50:14550"],
    connectCalls := [("mavlink.local", "192.168.1.50", 14550)],
    regCount := 3, deregCount := 2, nextFd := 3 }

/-- Result of a duplicate address-query success for the already-connected
(mavlink.local, 14550) pair delivered on the browse descriptor of
`stateA`: the descriptor is deregistered but nothing else changes. -/
def stateADup : ModuleState :=
  { stateA with selectExtra := [], deregCount := 3 }

/-- Result of a first address-query success processed directly on
`stateB` (deregistering fd 1): one connection is established. -/
def stateBConnect : ModuleState :=
  { selectExtra := [(0, (.processResult, ⟨0, .browse⟩))],
    connected_GCS := [("mavlink.local", 14550)],
    mavOutputs := [{ address := "192.168.1.50:14550", baud := 115200, input := false }],
    printed := ["Module discover loaded", "Connected to MAVLink at 192.168.1.50:14550"],
    connectCalls := [("mavlink.local", "192.168.1.50", 14550)],
    regCount := 2, deregCount := 1, nextFd := 2 }

/-- `deregister_service_descriptor` applied to the browse descriptor of
the freshly initialised module. -/
def stateInitDereg : ModuleState :=
  { selectExtra := [], connected_GCS := [], mavOutputs := [],
    printed := ["Module discover loaded"], connectCalls := [],
    regCount := 1, deregCount := 1, nextFd := 1 }

/-- Does the event table of `s` hold, at descriptor `fd`, a resolve-stage
entry whose bound service name is `sn`? -/
def registeredResolveFor (s : ModuleState) (fd : Nat) (sn : String) : Bool :=
  match lookupEntry s.selectExtra fd with
  | some (_, sd) =>
    match sd.kind with
    | .resolve _ sn2 _ _ => decide (sn2 = sn)
    | _ => false
  | none => false

/-- The flags argument carried by an event. -/
def eventFlags : Event → Nat
  | .browseEv flags _ _ _ _ _ => flags
  | .resolveEv _ flags _ _ _ _ _ _ => flags
  | .queryEv _ flags _ _ _ _ => flags

/-- The descriptor an event is delivered on (browse events always target
the browse descriptor, fd 0 here). -/
def eventFd : Event → Nat
  | .browseEv _ _ _ _ _ _ => 0
  | .resolveEv fd _ _ _ _ _ _ _ => fd
  | .queryEv fd _ _ _ _ _ => fd

/-- The fullname argument of a resolve event. -/
def eventResolveFullname : Event → String
  | .resolveEv _ _ _ _ fn _ _ _ => fn
  | _ => ""

/-- The text-record argument of a resolve event. -/
def eventResolveTxt : Event → String
  | .resolveEv _ _ _ _ _ _ _ txt => txt
  | _ => ""

/-- The registry bookkeeping invariant: no duplicate connection record,
and one outbound stream and one connect call per record. -/
def RegInv (s : ModuleState) : Prop :=
  s.connected_GCS.Nodup ∧
  s.mavOutputs.length = s.connected_GCS.length ∧
  s.connectCalls.length = s.connected_GCS.length

/-! ## Association-table lemmas -/

theorem lookupEntry_tableSet (t : EventTable) (k j : Nat) (v : TableEntry) :
    lookupEntry (tableSet t k v) j = if j = k then some v else lookupEntry t j := by
  induction t with
  | nil =>
    by_cases h : j = k <;> simp [tableSet, lookupEntry, h]
  | cons p rest ih =>
    obtain ⟨k0, v0⟩ := p
    by_cases hk : k = k0
    · subst hk
      by_cases hj : j = k <;> simp [tableSet, lookupEntry, hj]
    · by_cases hj : j = k0
      · subst hj
        have : ¬ j = k := fun h => hk h.symm
        simp [tableSet, lookupEntry, hk, this]
      · simp [tableSet, lookupEntry, hk, hj, ih]

theorem tableSet_fresh (t : EventTable) (k : Nat) (v : TableEntry)
    (h : ∀ p ∈ t, p.1 ≠ k) : tableSet t k v = t ++ [(k, v)] := by
  induction t with
  | nil => simp [tableSet]
  | cons p rest ih =>
    obtain ⟨k0, v0⟩ := p
    have hk : k ≠ k0 := fun he => h (k0, v0) (by simp) (by simp [he])
    simp only [tableSet, if_neg hk, List.cons_append, List.cons.injEq, true_and]
    exact ih (fun p hp => h p (by simp [hp]))

theorem tableDel_append_fresh (t : EventTable) (k : Nat) (v : TableEntry)
    (h : ∀ p ∈ t, p.1 ≠ k) : tableDel (t ++ [(k, v)]) k = some t := by
  induction t with
  | nil => simp [tableDel]
  | cons p rest ih =>
    obtain ⟨k0, v0⟩ := p
    have hk : k ≠ k0 := fun he => h (k0, v0) (by simp) (by simp [he])
    have ihr := ih (fun p hp => h p (by simp [hp]))
    simp [List.cons_append, tableDel, if_neg hk, ihr]

theorem tableDel_none_iff (t : EventTable) (k : Nat) :
    tableDel t k = none ↔ lookupEntry t k = none := by
  induction t with
  | nil => simp [tableDel, lookupEntry]
  | cons p rest ih =>
    obtain ⟨k0, v0⟩ := p
    by_cases hk : k = k0
    · simp [tableDel, lookupEntry, hk]
    · cases hdel : tableDel rest k with
      | none => simp [tableDel, lookupEntry, hk, hdel, ← ih]
      | some t' => simp [tableDel, lookupEntry, hk, hdel, ← ih]

theorem lookupEntry_eq_none_of_fresh (t : EventTable) (j : Nat)
    (h : ∀ p ∈ t, p.1 ≠ j) : lookupEntry t j = none := by
  induction t with
  | nil => rfl
  | cons p rest ih =>
    obtain ⟨k0, v0⟩ := p
    have : j ≠ k0 := fun he => h (k0, v0) (by simp) he.symm
    simp only [lookupEntry, if_neg this]
    exact ih (fun p hp => h p (by simp [hp]))

theorem lookupEntry_tableDel (t t' : EventTable) (k : Nat)
    (hnd : (t.map Prod.fst).Nodup) (hdel : tableDel t k = some t') (j : Nat) :
    lookupEntry t' j = if j = k then none else lookupEntry t j := by
  induction t generalizing t' with
  | nil => simp [tableDel] at hdel
  | cons p rest ih =>
    obtain ⟨k0, v0⟩ := p
    rw [List.map_cons, List.nodup_cons] at hnd
    by_cases hk : k = k0
    · subst hk
      simp only [tableDel, if_true, eq_self_iff_true, if_pos, Option.some.injEq] at hdel
      subst hdel
      by_cases hj : j = k
      · subst hj
        simp only [if_pos rfl]
        apply lookupEntry_eq_none_of_fresh
        intro p hp he
        apply hnd.1
        have hm : p.1 ∈ List.map Prod.fst rest := List.mem_map_of_mem Prod.fst hp
        rwa [he] at hm
      · simp only [if_neg hj, lookupEntry, if_neg hj]
    · simp only [tableDel, if_neg hk] at hdel
      cases hrest : tableDel rest k with
      | none => simp [hrest] at hdel
      | some r =>
        simp only [hrest] at hdel
        rw [Option.map] at hdel
        simp only [Option.some.injEq] at hdel
        subst hdel
        by_cases hj : j = k0
        · subst hj
          have hjk : ¬ j = k := fun he => hk he.symm
          simp [lookupEntry, hjk]
        · simp only [lookupEntry, if_neg hj]
          exact ih r hnd.2 hrest

/-! ## Claim theorems -/

/-- Claim C6: `connect_to_GCS(name, address, port)` formats the endpoint
string as the numeric address and the port joined by a colon, opens
exactly one outbound stream with the fixed rate 115200 and the
output-only flag (`input = false`), appends that stream to the
host-owned outbound-connection list, and appends the record
(name, port) to the connection registry; the function is total (it
catches no transport error) and performs these operations exactly once
(no retry). -/
theorem spec_C6_connect :
    ∀ (s : ModuleState) (fullname ip_address : String) (port : Nat),
    connect_to_GCS s fullname ip_address port =
      { s with
        mavOutputs := s.mavOutputs ++
          [{ address := ip_address ++ ":" ++ toString port, baud := 115200, input := false }],
        connectCalls := s.connectCalls ++ [(fullname, ip_address, port)],
        connected_GCS := s.connected_GCS ++ [(fullname, port)] } :=
  fun _ _ _ _ => rfl

/-- Claim C8: a browse callback whose flags do not contain the add bit
and whose error code is the success code appends exactly the diagnostic
line "Service removed" to the console and changes nothing else: no
table entry is added or removed, no connection record is removed and no
outbound stream is closed. -/
theorem spec_C8_removal_noop :
    ∀ (s : ModuleState) (sdRef : SdRef) (flags interfaceIndex : Nat)
      (serviceName regtype replyDomain : String),
    flags &&& kDNSServiceFlagsAdd = 0 →
    browse_callback s sdRef flags interfaceIndex kDNSServiceErr_NoError
        serviceName regtype replyDomain =
      .ok { s with printed := s.printed ++ ["Service removed"] } := by
  intro s sd flags idx sn rt rd h
  simp [browse_callback, h]

/-- Witness for C8 at a concrete removal event. -/
theorem spec_C8_removal_noop_witness :
    (0 &&& kDNSServiceFlagsAdd = 0) ∧
    browse_callback initState ⟨0, .browse⟩ 0 0 kDNSServiceErr_NoError
        "MAVLink" "_gcs._udp." "local." =
      .ok { initState with printed := initState.printed ++ ["Service removed"] } :=
  ⟨by decide,
   spec_C8_removal_noop initState ⟨0, .browse⟩ 0 0 "MAVLink" "_gcs._udp." "local." (by decide)⟩

/-- Claim C9: `deregister_service_descriptor` is not tolerant of a
missing entry: on a descriptor whose number has no entry in the event
table it raises a `KeyError` instead of being a no-op, and consequently
a second deregistration of the same registration (on a table with
no duplicate keys) raises as well. -/
theorem spec_C9_deregister_strict :
    (∀ (s : ModuleState) (sd : SdRef),
      lookupEntry s.selectExtra sd.fd = none →
      deregister_service_descriptor s sd = .error (.keyError sd.fd, s)) ∧
    (∀ (s s1 : ModuleState) (sd : SdRef),
      (s.selectExtra.map Prod.fst).Nodup →
      deregister_service_descriptor s sd = .ok s1 →
      deregister_service_descriptor s1 sd = .error (.keyError sd.fd, s1)) := by
  constructor
  · intro s sd hnone
    have hd : tableDel s.selectExtra sd.fd = none := (tableDel_none_iff _ _).mpr hnone
    simp [deregister_service_descriptor, hd]
  · intro s s1 sd hnd hok
    unfold deregister_service_descriptor at hok
    cases hdel : tableDel s.selectExtra sd.fd with
    | none => rw [hdel] at hok; exact absurd hok (by simp)
    | some t =>
      rw [hdel] at hok
      simp only [Except.ok.injEq] at hok
      subst hok
      have hl : lookupEntry t sd.fd = none := by
        have h2 := lookupEntry_tableDel _ _ _ hnd hdel sd.fd
        simpa using h2
      have hd : tableDel t sd.fd = none := (tableDel_none_iff _ _).mpr hl
      simp [deregister_service_descriptor, hd]

/-- Witness for C9: deregistering an unknown descriptor (fd 5) on the
fresh module raises, and a second deregistration of the browse
descriptor (fd 0) raises after the first one succeeded. -/
theorem spec_C9_deregister_strict_witness :
    (lookupEntry initState.selectExtra 5 = none ∧
      deregister_service_descriptor initState ⟨5, .browse⟩ =
        .error (.keyError 5, initState)) ∧
    ((initState.selectExtra.map Prod.fst).Nodup ∧
      deregister_service_descriptor initState ⟨0, .browse⟩ = .ok stateInitDereg ∧
      deregister_service_descriptor stateInitDereg ⟨0, .browse⟩ =
        .error (.keyError 0, stateInitDereg)) :=
  ⟨⟨by decide, spec_C9_deregister_strict.1 initState ⟨5, .browse⟩ (by decide)⟩,
   ⟨by decide, rfl,
    spec_C9_deregister_strict.2 initState stateInitDereg ⟨0, .browse⟩ (by decide) rfl⟩⟩

/-- Claim C10: in the success path of the address-query callback the raw
payload is decoded before the descriptor is deregistered and before the
de-duplication check, so a success callback with a payload that is not
4 bytes long raises `socket.error` out of the callback with the module
state untouched: the table entry is not removed and the registry is
unchanged (the carried state is exactly the entry state). -/
theorem spec_C10_decode_precedes :
    ∀ (s : ModuleState) (sd : SdRef) (flags iface : Nat) (fullname : String)
      (rrtype rrclass : Nat) (rdata : List Nat) (ttl port : Nat) (sn : String),
    rdata.length ≠ 4 →
    query_record_callback s sd flags iface kDNSServiceErr_NoError
        fullname rrtype rrclass rdata ttl port sn =
      .error (.socketError, s) := by
  intro s sd flags iface fullname rrtype rrclass rdata ttl port sn hlen
  simp [query_record_callback, inet_ntoa, hlen]

/-- Witness for C10: a 3-byte payload raises with `stateC` unchanged,
even though the query descriptor fd 2 is registered and the registry is
empty. -/
theorem spec_C10_decode_precedes_witness :
    (([192, 168, 1] : List Nat).length ≠ 4) ∧
    query_record_callback stateC ⟨2, .query 0 "mavlink.local" 14550 "MAVLink"⟩ 0 0
        kDNSServiceErr_NoError "mavlink.local" 1 1 [192, 168, 1] 120 14550 "MAVLink" =
      .error (.socketError, stateC) :=
  ⟨by decide,
   spec_C10_decode_precedes stateC ⟨2, .query 0 "mavlink.local" 14550 "MAVLink"⟩ 0 0
     "mavlink.local" 1 1 [192, 168, 1] 120 14550 "MAVLink" (by decide)⟩

/-- Counterexample to claim C2: deliver a browse add for "MAVLink"
(registering the resolve descriptor fd 1) and then a resolve event on
fd 1 with the non-success error code 1.  The run is `stateB` unchanged:
the resolve entry for fd 1 is still registered, so the error callback
did NOT deregister the current stage's descriptor as the claim states. -/
theorem spec_C2_counterexample :
    runEvents initState
      [.browseEv 2 kDNSServiceErr_NoError "MAVLink" "_gcs._udp." "local." 0,
       .resolveEv 1 0 0 1 "MAVLink._gcs._udp.local." "mavlink.local" 14550 ""] =
      .ok stateB ∧
    lookupEntry stateB.selectExtra 1 =
      some (.processResult, ⟨1, .resolve 0 "MAVLink" "_gcs._udp." "local."⟩) :=
  ⟨rfl, rfl⟩

/-- Claim C2 (amended): a pipeline-stage callback invoked with a
non-success error code returns immediately with the module state
completely unchanged — it deregisters nothing (the current stage's
entry stays in the table), registers no further stage, and lets no
exception propagate to the host loop. -/
theorem spec_C2_error_noop :
    ∀ (s : ModuleState) (sd : SdRef) (flags iface errorCode : Nat)
      (fullname hosttarget : String) (port : Nat) (txtRecord serviceName : String)
      (rrtype rrclass : Nat) (rdata : List Nat) (ttl : Nat)
      (regtype replyDomain : String),
    errorCode ≠ kDNSServiceErr_NoError →
    browse_callback s sd flags iface errorCode serviceName regtype replyDomain = .ok s ∧
    resolve_callback s sd flags iface errorCode fullname hosttarget port txtRecord serviceName = .ok s ∧
    query_record_callback s sd flags iface errorCode fullname rrtype rrclass rdata ttl port serviceName = .ok s := by
  intro s sd flags iface errorCode fullname hosttarget port txtRecord serviceName
    rrtype rrclass rdata ttl regtype replyDomain h
  refine ⟨?_, ?_, ?_⟩
  · simp [browse_callback, h]
  · simp [resolve_callback, h]
  · simp [query_record_callback, h]

/-- Witness for the amended C2 at error code 1 on `stateB`. -/
theorem spec_C2_error_noop_witness :
    ((1 : Nat) ≠ kDNSServiceErr_NoError) ∧
    browse_callback stateB ⟨0, .browse⟩ 2 0 1 "MAVLink" "_gcs._udp." "local." = .ok stateB ∧
    resolve_callback stateB ⟨1, .resolve 0 "MAVLink" "_gcs._udp." "local."⟩ 0 0 1
        "MAVLink._gcs._udp.local." "mavlink.local" 14550 "" "MAVLink" = .ok stateB ∧
    query_record_callback stateB ⟨1, .resolve 0 "MAVLink" "_gcs._udp." "local."⟩ 0 0 1
        "mavlink.local" 1 1 [192, 168, 1, 50] 120 14550 "MAVLink" = .ok stateB :=
  ⟨by decide,
   (spec_C2_error_noop stateB ⟨0, .browse⟩ 2 0 1 "x" "y" 0 "z" "MAVLink" 1 1 [] 0
      "_gcs._udp." "local." (by decide)).1,
   (spec_C2_error_noop stateB ⟨1, .resolve 0 "MAVLink" "_gcs._udp." "local."⟩ 0 0 1
      "MAVLink._gcs._udp.local." "mavlink.local" 14550 "" "MAVLink" 1 1 [] 0
      "rt" "rd" (by decide)).2.1,
   (spec_C2_error_noop stateB ⟨1, .resolve 0 "MAVLink" "_gcs._udp." "local."⟩ 0 0 1
      "mavlink.local" "h" 14550 "t" "MAVLink" 1 1 [192, 168, 1, 50] 120
      "rt" "rd" (by decide)).2.2⟩

/-- Counterexample to claim C4: `stateB`'s table holds an entry for key 1
(the resolve descriptor).  Registering a different descriptor with the
same number 1 succeeds silently: the old entry is replaced by the new
one and nothing observable happens (no exception is possible — the
function is total — and the console log is unchanged), contradicting
"fails loudly ... never silently replaces an existing entry". -/
theorem spec_C4_counterexample :
    lookupEntry stateB.selectExtra 1 =
      some (.processResult, ⟨1, .resolve 0 "MAVLink" "_gcs._udp." "local."⟩) ∧
    (register_service_descriptor stateB ⟨1, .browse⟩ .processResult).selectExtra =
      [(0, (.processResult, ⟨0, .browse⟩)), (1, (.processResult, ⟨1, .browse⟩))] ∧
    (register_service_descriptor stateB ⟨1, .browse⟩ .processResult).printed = stateB.printed :=
  ⟨rfl, rfl, rfl⟩

/-- Claim C4 (amended): `register_service_descriptor` inserts the
(handler, descriptor) pair into the event table under the descriptor's
number, unconditionally and silently overwriting any entry already held
for that key; it never fails (it is total, with no exception path and
no output), and it leaves every other key's entry unchanged. -/
theorem spec_C4_register_overwrites :
    ∀ (s : ModuleState) (sd : SdRef) (handler : Handler),
    lookupEntry (register_service_descriptor s sd handler).selectExtra sd.fd =
      some (handler, sd) ∧
    (register_service_descriptor s sd handler).printed = s.printed ∧
    (∀ k : Nat, k ≠ sd.fd →
      lookupEntry (register_service_descriptor s sd handler).selectExtra k =
        lookupEntry s.selectExtra k) := by
  intro s sd handler
  refine ⟨?_, rfl, ?_⟩
  · show lookupEntry (tableSet s.selectExtra sd.fd (handler, sd)) sd.fd = some (handler, sd)
    rw [lookupEntry_tableSet]
    simp
  · intro k hk
    show lookupEntry (tableSet s.selectExtra sd.fd (handler, sd)) k = lookupEntry s.selectExtra k
    rw [lookupEntry_tableSet]
    simp [hk]

/-- Witness for the amended C4 on `stateB` at the occupied key 1. -/
theorem spec_C4_register_overwrites_witness :
    lookupEntry (register_service_descriptor stateB ⟨1, .browse⟩ .processResult).selectExtra 1 =
      some (.processResult, ⟨1, .browse⟩) ∧
    (register_service_descriptor stateB ⟨1, .browse⟩ .processResult).printed = stateB.printed ∧
    ((0 : Nat) ≠ 1 ∧
      lookupEntry (register_service_descriptor stateB ⟨1, .browse⟩ .processResult).selectExtra 0 =
        lookupEntry stateB.selectExtra 0) :=
  ⟨(spec_C4_register_overwrites stateB ⟨1, .browse⟩ .processResult).1,
   (spec_C4_register_overwrites stateB ⟨1, .browse⟩ .processResult).2.1,
   by decide,
   (spec_C4_register_overwrites stateB ⟨1, .browse⟩ .processResult).2.2 0 (by decide)⟩

/-- Counterexample to claim C7: running scenario A (browse add for
"MAVLink", resolve success with host mavlink.local port 14550, address
query success with the bytes of 192.168.1.50) produces exactly one
connect call, but its arguments are ("mavlink.local", "192.168.1.50",
14550) — the first argument is the fullname of the queried A record
(the host), not the service name "MAVLink" as the claim states. -/
theorem spec_C7_counterexample :
    runEvents initState trA = .ok stateA ∧
    stateA.connectCalls = [("mavlink.local", "192.168.1.50", 14550)] ∧
    ("MAVLink", "192.168.1.50", 14550) ∉ stateA.connectCalls :=
  ⟨rfl, rfl, by decide⟩

/-- Claim C7 (amended): in the end-to-end scenario A exactly one connect
call occurs, with arguments ("mavlink.local", "192.168.1.50", 14550)
(name = the queried host fullname), and exactly one confirmation line
`Connected to MAVLink at 192.168.1.50:14550` is emitted (the line uses
the bound service name). -/
theorem spec_C7_scenarioA :
    runEvents initState trA = .ok stateA ∧
    stateA.connectCalls = [("mavlink.local", "192.168.1.50", 14550)] ∧
    stateA.printed.count "Connected to MAVLink at 192.168.1.50:14550" = 1 ∧
    stateA.mavOutputs = [{ address := "192.168.1.50:14550", baud := 115200, input := false }] :=
  ⟨rfl, rfl, by decide, rfl⟩

/-- A successful deregistration changes only the event table and the
deregistration counter. -/
theorem deregister_fields (s s1 : ModuleState) (sd : SdRef)
    (h : deregister_service_descriptor s sd = .ok s1) :
    s1.connected_GCS = s.connected_GCS ∧ s1.mavOutputs = s.mavOutputs ∧
    s1.connectCalls = s.connectCalls ∧ s1.printed = s.printed ∧
    s1.regCount = s.regCount ∧ s1.nextFd = s.nextFd := by
  unfold deregister_service_descriptor at h
  split at h
  · simp only [Except.ok.injEq] at h
    subst h
    exact ⟨rfl, rfl, rfl, rfl, rfl, rfl⟩
  · exact absurd h (by simp)

theorem stepEvent_preserves_regInv (s s' : ModuleState) (e : Event)
    (hInv : RegInv s) (hstep : stepEvent s e = .ok s') : RegInv s' := by
  obtain ⟨h1, h2, h3⟩ := hInv
  cases e with
  | browseEv flags ec sn rt rd iface =>
    simp only [stepEvent] at hstep
    unfold browse_callback at hstep
    by_cases hec : ec ≠ kDNSServiceErr_NoError
    · simp only [if_pos hec, Except.ok.injEq] at hstep
      subst hstep
      exact ⟨h1, h2, h3⟩
    · simp only [if_neg hec] at hstep
      by_cases hfl : flags &&& kDNSServiceFlagsAdd = 0
      · simp only [if_pos hfl, Except.ok.injEq] at hstep
        subst hstep
        exact ⟨h1, h2, h3⟩
      · simp only [if_neg hfl, Except.ok.injEq] at hstep
        subst hstep
        exact ⟨h1, h2, h3⟩
  | resolveEv fd flags iface ec fn ht port txt =>
    simp only [stepEvent] at hstep
    cases hlook : lookupEntry s.selectExtra fd with
    | none =>
      simp only [hlook, Except.ok.injEq] at hstep
      subst hstep
      exact ⟨h1, h2, h3⟩
    | some entry =>
      obtain ⟨h0, sd0⟩ := entry
      simp only [hlook] at hstep
      cases hkind : sd0.kind with
      | browse =>
        simp only [hkind, Except.ok.injEq] at hstep
        subst hstep
        exact ⟨h1, h2, h3⟩
      | query i0 fn0 p0 sn0 =>
        simp only [hkind, Except.ok.injEq] at hstep
        subst hstep
        exact ⟨h1, h2, h3⟩
      | resolve i0 sn0 r0 d0 =>
        simp only [hkind] at hstep
        unfold resolve_callback at hstep
        by_cases hec : ec = kDNSServiceErr_NoError
        · simp only [if_pos hec] at hstep
          cases hd : deregister_service_descriptor s sd0 with
          | error err =>
            simp only [hd] at hstep
            exact absurd hstep (by simp)
          | ok s1 =>
            simp only [hd, Except.ok.injEq] at hstep
            subst hstep
            obtain ⟨d1, d2, d3, _, _, _⟩ := deregister_fields s s1 sd0 hd
            refine ⟨?_, ?_, ?_⟩
            · show s1.connected_GCS.Nodup
              rw [d1]; exact h1
            · show s1.mavOutputs.length = s1.connected_GCS.length
              rw [d1, d2]; exact h2
            · show s1.connectCalls.length = s1.connected_GCS.length
              rw [d1, d3]; exact h3
        · simp only [if_neg hec, Except.ok.injEq] at hstep
          subst hstep
          exact ⟨h1, h2, h3⟩
  | queryEv fd flags iface ec rdata ttl =>
    simp only [stepEvent] at hstep
    cases hlook : lookupEntry s.selectExtra fd with
    | none =>
      simp only [hlook, Except.ok.injEq] at hstep
      subst hstep
      exact ⟨h1, h2, h3⟩
    | some entry =>
      obtain ⟨h0, sd0⟩ := entry
      simp only [hlook] at hstep
      cases hkind : sd0.kind with
      | browse =>
        simp only [hkind, Except.ok.injEq] at hstep
        subst hstep
        exact ⟨h1, h2, h3⟩
      | resolve i0 sn0 r0 d0 =>
        simp only [hkind, Except.ok.injEq] at hstep
        subst hstep
        exact ⟨h1, h2, h3⟩
      | query i0 fn0 p0 sn0 =>
        simp only [hkind] at hstep
        unfold query_record_callback at hstep
        by_cases hec : ec = kDNSServiceErr_NoError
        · simp only [if_pos hec] at hstep
          cases hip : inet_ntoa rdata with
          | error k =>
            simp only [hip] at hstep
            exact absurd hstep (by simp)
          | ok ip =>
            simp only [hip] at hstep
            cases hd : deregister_service_descriptor s sd0 with
            | error err =>
              simp only [hd] at hstep
              exact absurd hstep (by simp)
            | ok s1 =>
              simp only [hd] at hstep
              obtain ⟨d1, d2, d3, _, _, _⟩ := deregister_fields s s1 sd0 hd
              by_cases hc : should_connect_to_GCS s1 fn0 p0 = true
              · rw [if_pos hc] at hstep
                simp only [Except.ok.injEq] at hstep
                subst hstep
                have hmem : (fn0, p0) ∉ s1.connected_GCS := of_decide_eq_true hc
                rw [d1] at hmem
                refine ⟨?_, ?_, ?_⟩
                · show (s1.connected_GCS ++ [(fn0, p0)]).Nodup
                  rw [d1]
                  exact List.nodup_middle.mpr
                    (List.nodup_cons.mpr ⟨by simpa using hmem, by simpa using h1⟩)
                · show (s1.mavOutputs ++
                      [mavlink_connection (ip ++ ":" ++ toString p0) BAUD false]).length =
                      (s1.connected_GCS ++ [(fn0, p0)]).length
                  rw [d1, d2]
                  simp [h2]
                · show (s1.connectCalls ++ [(fn0, ip, p0)]).length =
                      (s1.connected_GCS ++ [(fn0, p0)]).length
                  rw [d1, d3]
                  simp [h3]
              · rw [if_neg hc] at hstep
                simp only [Except.ok.injEq] at hstep
                subst hstep
                exact ⟨by rw [d1]; exact h1,
                       by rw [d1, d2]; exact h2,
                       by rw [d1, d3]; exact h3⟩
        · simp only [if_neg hec, Except.ok.injEq] at hstep
          subst hstep
          exact ⟨h1, h2, h3⟩

theorem runEvents_preserves_regInv :
    ∀ (es : List Event) (s s' : ModuleState),
    RegInv s → runEvents s es = .ok s' → RegInv s' := by
  intro es
  induction es with
  | nil =>
    intro s s' hInv hrun
    simp only [runEvents, Except.ok.injEq] at hrun
    subst hrun
    exact hInv
  | cons e rest ih =>
    intro s s' hInv hrun
    simp only [runEvents] at hrun
    cases hst : stepEvent s e with
    | ok s1 =>
      rw [hst] at hrun
      exact ih s1 s' (stepEvent_preserves_regInv s s1 e hInv hst) hrun
    | error err =>
      rw [hst] at hrun
      exact absurd hrun (by simp)

/-- Claim C1: (a) along any event trace from the initialised module the
connection registry never holds two records for the same
(fullname, port) pair, and exactly one outbound stream and one connect
call exist per record; (b) a successful address-query callback for a
pair already in the registry appends no record, opens no stream and
makes no connect call; (c) a successful address-query callback for a
pair not yet in the registry appends exactly one record and opens
exactly one stream. -/
theorem spec_C1_dedup :
    (∀ (es : List Event) (s' : ModuleState),
      runEvents initState es = .ok s' →
      s'.connected_GCS.Nodup ∧
      s'.mavOutputs.length = s'.connected_GCS.length ∧
      s'.connectCalls.length = s'.connected_GCS.length) ∧
    (∀ (s : ModuleState) (sd : SdRef) (flags iface : Nat) (fullname : String)
      (rrtype rrclass : Nat) (rdata : List Nat) (ttl port : Nat) (sn : String)
      (s2 : ModuleState),
      (fullname, port) ∈ s.connected_GCS →
      query_record_callback s sd flags iface kDNSServiceErr_NoError
          fullname rrtype rrclass rdata ttl port sn = .ok s2 →
      s2.connected_GCS = s.connected_GCS ∧ s2.mavOutputs = s.mavOutputs ∧
      s2.connectCalls = s.connectCalls) ∧
    (∀ (s : ModuleState) (sd : SdRef) (flags iface : Nat) (fullname : String)
      (rrtype rrclass : Nat) (rdata : List Nat) (ttl port : Nat) (sn : String)
      (s2 : ModuleState),
      (fullname, port) ∉ s.connected_GCS →
      query_record_callback s sd flags iface kDNSServiceErr_NoError
          fullname rrtype rrclass rdata ttl port sn = .ok s2 →
      s2.connected_GCS = s.connected_GCS ++ [(fullname, port)] ∧
      s2.mavOutputs.length = s.mavOutputs.length + 1) := by
  refine ⟨?_, ?_, ?_⟩
  · intro es s' hrun
    exact runEvents_preserves_regInv es initState s' ⟨by decide, by decide, by decide⟩ hrun
  · intro s sd flags iface fullname rrtype rrclass rdata ttl port sn s2 hmem h
    unfold query_record_callback at h
    rw [if_pos rfl] at h
    cases hip : inet_ntoa rdata with
    | error k =>
      simp only [hip] at h
      exact absurd h (by simp)
    | ok ip =>
      simp only [hip] at h
      cases hd : deregister_service_descriptor s sd with
      | error err =>
        simp only [hd] at h
        exact absurd h (by simp)
      | ok s1 =>
        simp only [hd] at h
        obtain ⟨d1, d2, d3, _, _, _⟩ := deregister_fields s s1 sd hd
        have hsc : ¬ should_connect_to_GCS s1 fullname port = true := by
          simp [should_connect_to_GCS, d1, hmem]
        rw [if_neg hsc] at h
        simp only [Except.ok.injEq] at h
        subst h
        exact ⟨d1, d2, d3⟩
  · intro s sd flags iface fullname rrtype rrclass rdata ttl port sn s2 hnmem h
    unfold query_record_callback at h
    rw [if_pos rfl] at h
    cases hip : inet_ntoa rdata with
    | error k =>
      simp only [hip] at h
      exact absurd h (by simp)
    | ok ip =>
      simp only [hip] at h
      cases hd : deregister_service_descriptor s sd with
      | error err =>
        simp only [hd] at h
        exact absurd h (by simp)
      | ok s1 =>
        simp only [hd] at h
        obtain ⟨d1, d2, d3, _, _, _⟩ := deregister_fields s s1 sd hd
        have hsc : should_connect_to_GCS s1 fullname port = true := by
          simp [should_connect_to_GCS, d1, hnmem]
        rw [if_pos hsc] at h
        simp only [Except.ok.injEq] at h
        subst h
        constructor
        · show s1.connected_GCS ++ [(fullname, port)] = s.connected_GCS ++ [(fullname, port)]
          rw [d1]
        · show (s1.mavOutputs ++
              [mavlink_connection (ip ++ ":" ++ toString port) BAUD false]).length =
              s.mavOutputs.length + 1
          rw [d2]
          simp

/-- Witness for C1: scenario A establishes one connection; a duplicate
query success on `stateA` changes nothing; the first query success on
`stateB` appends exactly one record and one stream. -/
theorem spec_C1_dedup_witness :
    (runEvents initState trA = .ok stateA ∧ stateA.connected_GCS.Nodup ∧
      stateA.mavOutputs.length = stateA.connected_GCS.length ∧
      stateA.connectCalls.length = stateA.connected_GCS.length) ∧
    (("mavlink.local", 14550) ∈ stateA.connected_GCS ∧
      query_record_callback stateA ⟨0, .browse⟩ 0 0 kDNSServiceErr_NoError
          "mavlink.local" 1 1 [192, 168, 1, 50] 120 14550 "MAVLink" = .ok stateADup ∧
      stateADup.connected_GCS = stateA.connected_GCS ∧
      stateADup.mavOutputs = stateA.mavOutputs ∧
      stateADup.connectCalls = stateA.connectCalls) ∧
    (("mavlink.local", 14550) ∉ stateB.connected_GCS ∧
      query_record_callback stateB ⟨1, .resolve 0 "MAVLink" "_gcs._udp." "local."⟩ 0 0
          kDNSServiceErr_NoError "mavlink.local" 1 1 [192, 168, 1, 50] 120 14550 "MAVLink" =
        .ok stateBConnect ∧
      stateBConnect.connected_GCS = stateB.connected_GCS ++ [("mavlink.local", 14550)] ∧
      stateBConnect.mavOutputs.length = stateB.mavOutputs.length + 1) :=
  ⟨⟨rfl, spec_C1_dedup.1 trA stateA rfl⟩,
   ⟨by decide, rfl,
    spec_C1_dedup.2.1 stateA ⟨0, .browse⟩ 0 0 "mavlink.local" 1 1 [192, 168, 1, 50] 120
      14550 "MAVLink" stateADup (by decide) rfl⟩,
   ⟨by decide, rfl,
    spec_C1_dedup.2.2 stateB ⟨1, .resolve 0 "MAVLink" "_gcs._udp." "local."⟩ 0 0
      "mavlink.local" 1 1 [192, 168, 1, 50] 120 14550 "MAVLink" stateBConnect
      (by decide) rfl⟩⟩

theorem lookupEntry_append_key (t : EventTable) (k : Nat) (v : TableEntry)
    (h : ∀ p ∈ t, p.1 ≠ k) : lookupEntry (t ++ [(k, v)]) k = some v := by
  rw [← tableSet_fresh t k v h, lookupEntry_tableSet]
  simp

theorem deregister_eq (s0 : ModuleState) (sd : SdRef) (t : EventTable)
    (h : tableDel s0.selectExtra sd.fd = some t) :
    deregister_service_descriptor s0 sd =
      .ok { s0 with selectExtra := t, deregCount := s0.deregCount + 1 } := by
  unfold deregister_service_descriptor
  rw [h]

/-- Projection of a successful address-query callback: whatever the
de-duplication branch does, the event table becomes the post-delete
table, the registration counter is unchanged and the deregistration
counter goes up by one. -/
theorem query_success_proj (s0 : ModuleState) (sd : SdRef) (flags iface : Nat)
    (fullname : String) (rrtype rrclass : Nat) (rdata : List Nat) (ttl port : Nat)
    (sn : String) (ip : String) (t : EventTable)
    (hip : inet_ntoa rdata = .ok ip)
    (hdel : tableDel s0.selectExtra sd.fd = some t) :
    (query_record_callback s0 sd flags iface kDNSServiceErr_NoError
        fullname rrtype rrclass rdata ttl port sn).map
      (fun sf => (sf.selectExtra, sf.regCount, sf.deregCount)) =
      .ok (t, s0.regCount, s0.deregCount + 1) := by
  unfold query_record_callback
  rw [if_pos rfl]
  simp only [hip]
  have hde := deregister_eq s0 sd t hdel
  simp only [hde]
  by_cases hc : should_connect_to_GCS
      { s0 with selectExtra := t, deregCount := s0.deregCount + 1 } fullname port = true
  · rw [if_pos hc]
    simp [Except.map, connect_to_GCS, register_connection_to_GCS]
  · rw [if_neg hc]
    simp [Except.map]

/-- Counterexample to claim C3: the chain instance consisting of a
successful browse add for "MAVLink" followed by a resolve callback with
error code 1 (which terminates the chain) adds one entry to the event
table (regCount goes from 1 to 2) but removes none (deregCount stays
0), and the instance's resolve registration at fd 1 is leaked. -/
theorem spec_C3_counterexample :
    runEvents initState
      [.browseEv 2 kDNSServiceErr_NoError "MAVLink" "_gcs._udp." "local." 0,
       .resolveEv 1 0 0 1 "MAVLink._gcs._udp.local." "mavlink.local" 14550 ""] =
      .ok stateB ∧
    stateB.regCount = initState.regCount + 1 ∧
    stateB.deregCount = initState.deregCount ∧
    lookupEntry stateB.selectExtra 1 =
      some (.processResult, ⟨1, .resolve 0 "MAVLink" "_gcs._udp." "local."⟩) :=
  ⟨rfl, rfl, rfl, rfl⟩

/-- Claim C3 (amended): when every stage of a chain instance completes
successfully, the instance adds exactly two entries to the event table
(the resolve and the query registrations) and removes exactly two,
leaving the table exactly as it started; but on a stage callback that
reports an error the current stage's entry is never removed, so an
erroring instance leaks its registration (see the counterexample). -/
theorem spec_C3_success_chain_balance :
    ∀ (s : ModuleState) (flags1 iface1 : Nat) (sn rt rd : String)
      (flags2 iface2 : Nat) (fn ht : String) (port : Nat) (txt : String)
      (flags3 iface3 : Nat) (rdata : List Nat) (ttl : Nat),
    (∀ p ∈ s.selectExtra, p.1 < s.nextFd) →
    flags1 &&& kDNSServiceFlagsAdd ≠ 0 →
    rdata.length = 4 →
    (runEvents s
      [.browseEv flags1 kDNSServiceErr_NoError sn rt rd iface1,
       .resolveEv s.nextFd flags2 iface2 kDNSServiceErr_NoError fn ht port txt,
       .queryEv (s.nextFd + 1) flags3 iface3 kDNSServiceErr_NoError rdata ttl]).map
      (fun sf => (sf.selectExtra, sf.regCount, sf.deregCount)) =
      .ok (s.selectExtra, s.regCount + 2, s.deregCount + 2) := by
  intro s flags1 iface1 sn rt rd flags2 iface2 fn ht port txt flags3 iface3 rdata ttl
    hfresh hadd hlen
  have hne1 : ∀ p ∈ s.selectExtra, p.1 ≠ s.nextFd :=
    fun p hp => Nat.ne_of_lt (hfresh p hp)
  have hne2 : ∀ p ∈ s.selectExtra, p.1 ≠ s.nextFd + 1 :=
    fun p hp => Nat.ne_of_lt (Nat.lt_succ_of_lt (hfresh p hp))
  have h1 : stepEvent s (.browseEv flags1 kDNSServiceErr_NoError sn rt rd iface1) =
      .ok (resolve_service s iface1 sn rt rd) := by
    simp only [stepEvent]
    unfold browse_callback
    rw [if_neg (by simp), if_neg hadd]
  have hs1sel : (resolve_service s iface1 sn rt rd).selectExtra =
      s.selectExtra ++
        [(s.nextFd, (Handler.processResult,
          ⟨s.nextFd, DescKind.resolve iface1 sn rt rd⟩))] := by
    show tableSet s.selectExtra s.nextFd _ = _
    exact tableSet_fresh _ _ _ hne1
  have hlook1 : lookupEntry (resolve_service s iface1 sn rt rd).selectExtra s.nextFd =
      some (Handler.processResult, ⟨s.nextFd, DescKind.resolve iface1 sn rt rd⟩) := by
    rw [hs1sel]
    exact lookupEntry_append_key _ _ _ hne1
  have hd1 : tableDel (resolve_service s iface1 sn rt rd).selectExtra
      (⟨s.nextFd, DescKind.resolve iface1 sn rt rd⟩ : SdRef).fd = some s.selectExtra := by
    rw [hs1sel]
    exact tableDel_append_fresh _ _ _ hne1
  have h2 : stepEvent (resolve_service s iface1 sn rt rd)
      (.resolveEv s.nextFd flags2 iface2 kDNSServiceErr_NoError fn ht port txt) =
      .ok (query_host
        { resolve_service s iface1 sn rt rd with
          selectExtra := s.selectExtra, deregCount := s.deregCount + 1 }
        iface2 sn ht port) := by
    simp only [stepEvent, hlook1]
    unfold resolve_callback
    rw [if_pos rfl]
    have hde := deregister_eq (resolve_service s iface1 sn rt rd)
      ⟨s.nextFd, DescKind.resolve iface1 sn rt rd⟩ s.selectExtra hd1
    simp only [hde]
    rfl
  have hs3sel : (query_host
      { resolve_service s iface1 sn rt rd with
        selectExtra := s.selectExtra, deregCount := s.deregCount + 1 }
      iface2 sn ht port).selectExtra =
      s.selectExtra ++
        [(s.nextFd + 1, (Handler.processResult,
          ⟨s.nextFd + 1, DescKind.query iface2 ht port sn⟩))] := by
    show tableSet s.selectExtra (s.nextFd + 1) _ = _
    exact tableSet_fresh _ _ _ hne2
  have hlook2 : lookupEntry (query_host
      { resolve_service s iface1 sn rt rd with
        selectExtra := s.selectExtra, deregCount := s.deregCount + 1 }
      iface2 sn ht port).selectExtra (s.nextFd + 1) =
      some (Handler.processResult, ⟨s.nextFd + 1, DescKind.query iface2 ht port sn⟩) := by
    rw [hs3sel]
    exact lookupEntry_append_key _ _ _ hne2
  have hip : inet_ntoa rdata = .ok (String.intercalate "." (rdata.map (fun b => toString b))) := by
    simp [inet_ntoa, hlen]
  have hd2 : tableDel (query_host
      { resolve_service s iface1 sn rt rd with
        selectExtra := s.selectExtra, deregCount := s.deregCount + 1 }
      iface2 sn ht port).selectExtra
      (⟨s.nextFd + 1, DescKind.query iface2 ht port sn⟩ : SdRef).fd = some s.selectExtra := by
    rw [hs3sel]
    exact tableDel_append_fresh _ _ _ hne2
  have h3 : (stepEvent (query_host
      { resolve_service s iface1 sn rt rd with
        selectExtra := s.selectExtra, deregCount := s.deregCount + 1 }
      iface2 sn ht port)
      (.queryEv (s.nextFd + 1) flags3 iface3 kDNSServiceErr_NoError rdata ttl)).map
      (fun sf => (sf.selectExtra, sf.regCount, sf.deregCount)) =
      .ok (s.selectExtra, s.regCount + 2, s.deregCount + 2) := by
    simp only [stepEvent, hlook2]
    exact query_success_proj _ _ _ _ _ _ _ _ _ _ _ _ _ hip hd2
  simp only [runEvents, h1, h2]
  cases hst : stepEvent (query_host
      { resolve_service s iface1 sn rt rd with
        selectExtra := s.selectExtra, deregCount := s.deregCount + 1 }
      iface2 sn ht port)
      (.queryEv (s.nextFd + 1) flags3 iface3 kDNSServiceErr_NoError rdata ttl) with
  | ok s4 =>
    rw [hst] at h3
    simpa [Except.map] using h3
  | error err =>
    rw [hst] at h3
    simp [Except.map] at h3

/-- Witness for the amended C3 on the freshly initialised module. -/
theorem spec_C3_success_chain_balance_witness :
    ((∀ p ∈ initState.selectExtra, p.1 < initState.nextFd) ∧
      (2 &&& kDNSServiceFlagsAdd ≠ 0) ∧
      (([192, 168, 1, 50] : List Nat).length = 4)) ∧
    (runEvents initState
      [.browseEv 2 kDNSServiceErr_NoError "MAVLink" "_gcs._udp." "local." 0,
       .resolveEv initState.nextFd 0 0 kDNSServiceErr_NoError
         "MAVLink._gcs._udp.local." "mavlink.local" 14550 "",
       .queryEv (initState.nextFd + 1) 0 0 kDNSServiceErr_NoError [192, 168, 1, 50] 120]).map
      (fun sf => (sf.selectExtra, sf.regCount, sf.deregCount)) =
      .ok (initState.selectExtra, initState.regCount + 2, initState.deregCount + 2) :=
  ⟨⟨by decide, by decide, by decide⟩,
   spec_C3_success_chain_balance initState 2 0 "MAVLink" "_gcs._udp." "local." 0 0
     "MAVLink._gcs._udp.local." "mavlink.local" 14550 "" 0 0 [192, 168, 1, 50] 120
     (by decide) (by decide) (by decide)⟩

/-- Claim C5: stages occur in strict order.  If dispatching one event
adds a new entry to the event table (a descriptor number `fd` that was
unregistered before and registered after), then: the new entry is never
a browse descriptor; if it is a resolve-stage descriptor, the event was
a browse notification with the add flag set and the success error code,
carrying exactly the bound service name, registration type, reply
domain and interface index; and if it is a query-stage descriptor, the
event was a resolve completion with the success error code whose
descriptor was registered as a resolve-stage entry bound to the same
service name (the same chain instance). -/
theorem spec_C5_chain_order :
    ∀ (s : ModuleState) (e : Event) (s' : ModuleState) (fd : Nat)
      (handler : Handler) (sd : SdRef),
    (s.selectExtra.map Prod.fst).Nodup →
    stepEvent s e = .ok s' →
    lookupEntry s'.selectExtra fd = some (handler, sd) →
    lookupEntry s.selectExtra fd = none →
    sd.kind ≠ DescKind.browse ∧
    (∀ (iface : Nat) (sn rt rd : String), sd.kind = .resolve iface sn rt rd →
      e = .browseEv (eventFlags e) kDNSServiceErr_NoError sn rt rd iface ∧
      eventFlags e &&& kDNSServiceFlagsAdd ≠ 0) ∧
    (∀ (iface : Nat) (host : String) (port : Nat) (sn : String),
      sd.kind = .query iface host port sn →
      e = .resolveEv (eventFd e) (eventFlags e) iface kDNSServiceErr_NoError
            (eventResolveFullname e) host port (eventResolveTxt e) ∧
      registeredResolveFor s (eventFd e) sn = true) := by
  intro s e s' fd handler sd hnd hstep hlook' hlook
  cases e with
  | browseEv flags ec sn rt rd iface =>
    simp only [stepEvent] at hstep
    unfold browse_callback at hstep
    by_cases hec : ec ≠ kDNSServiceErr_NoError
    · simp only [if_pos hec, Except.ok.injEq] at hstep
      subst hstep
      rw [hlook] at hlook'
      exact absurd hlook' (by simp)
    · have hec0 : ec = kDNSServiceErr_NoError := of_not_not hec
      subst hec0
      simp only [if_neg hec] at hstep
      by_cases hfl : flags &&& kDNSServiceFlagsAdd = 0
      · simp only [if_pos hfl, Except.ok.injEq] at hstep
        subst hstep
        have hx : lookupEntry s.selectExtra fd = some (handler, sd) := hlook'
        rw [hlook] at hx
        exact absurd hx (by simp)
      · simp only [if_neg hfl, Except.ok.injEq] at hstep
        subst hstep
        have hx : lookupEntry (tableSet s.selectExtra s.nextFd
            (Handler.processResult, ⟨s.nextFd, DescKind.resolve iface sn rt rd⟩)) fd =
            some (handler, sd) := hlook'
        rw [lookupEntry_tableSet] at hx
        by_cases hfd : fd = s.nextFd
        · rw [if_pos hfd] at hx
          simp only [Option.some.injEq, Prod.mk.injEq] at hx
          obtain ⟨hh, hsd⟩ := hx
          subst hsd
          refine ⟨by simp, ?_, ?_⟩
          · intro i2 sn2 rt2 rd2 hk
            simp only [DescKind.resolve.injEq] at hk
            obtain ⟨ha, hb, hc, hd⟩ := hk
            subst ha; subst hb; subst hc; subst hd
            exact ⟨rfl, hfl⟩
          · intro i2 host2 p2 sn2 hk
            simp at hk
        · rw [if_neg hfd] at hx
          rw [hlook] at hx
          exact absurd hx (by simp)
  | resolveEv fd0 flags iface ec fn ht port txt =>
    simp only [stepEvent] at hstep
    cases hl0 : lookupEntry s.selectExtra fd0 with
    | none =>
      simp only [hl0, Except.ok.injEq] at hstep
      subst hstep
      rw [hlook] at hlook'
      exact absurd hlook' (by simp)
    | some entry =>
      obtain ⟨h0, sd0⟩ := entry
      simp only [hl0] at hstep
      cases hkind : sd0.kind with
      | browse =>
        simp only [hkind, Except.ok.injEq] at hstep
        subst hstep
        rw [hlook] at hlook'
        exact absurd hlook' (by simp)
      | query i0 fn0 p0 sn0 =>
        simp only [hkind, Except.ok.injEq] at hstep
        subst hstep
        rw [hlook] at hlook'
        exact absurd hlook' (by simp)
      | resolve i0 sn0 r0 d0 =>
        simp only [hkind] at hstep
        unfold resolve_callback at hstep
        by_cases hec : ec = kDNSServiceErr_NoError
        · subst hec
          rw [if_pos rfl] at hstep
          cases hd : deregister_service_descriptor s sd0 with
          | error err =>
            simp only [hd] at hstep
            exact absurd hstep (by simp)
          | ok s1 =>
            simp only [hd, Except.ok.injEq] at hstep
            subst hstep
            unfold deregister_service_descriptor at hd
            cases hdel : tableDel s.selectExtra sd0.fd with
            | none =>
              rw [hdel] at hd
              exact absurd hd (by simp)
            | some t =>
              rw [hdel] at hd
              simp only [Except.ok.injEq] at hd
              subst hd
              have hx : lookupEntry (tableSet t s.nextFd
                  (Handler.processResult, ⟨s.nextFd, DescKind.query iface ht port sn0⟩)) fd =
                  some (handler, sd) := hlook'
              rw [lookupEntry_tableSet] at hx
              by_cases hfd : fd = s.nextFd
              · rw [if_pos hfd] at hx
                simp only [Option.some.injEq, Prod.mk.injEq] at hx
                obtain ⟨hh, hsd⟩ := hx
                subst hsd
                refine ⟨by simp, ?_, ?_⟩
                · intro i2 sn2 rt2 rd2 hk
                  simp at hk
                · intro i2 host2 p2 sn2 hk
                  simp only [DescKind.query.injEq] at hk
                  obtain ⟨ha, hb, hc, hd2⟩ := hk
                  subst ha; subst hb; subst hc; subst hd2
                  refine ⟨rfl, ?_⟩
                  show registeredResolveFor s fd0 sn0 = true
                  unfold registeredResolveFor
                  simp only [hl0, hkind]
                  simp
              · rw [if_neg hfd] at hx
                rw [lookupEntry_tableDel s.selectExtra t sd0.fd hnd hdel fd] at hx
                by_cases hfd2 : fd = sd0.fd
                · rw [if_pos hfd2] at hx
                  exact absurd hx (by simp)
                · rw [if_neg hfd2] at hx
                  rw [hlook] at hx
                  exact absurd hx (by simp)
        · rw [if_neg hec] at hstep
          simp only [Except.ok.injEq] at hstep
          subst hstep
          rw [hlook] at hlook'
          exact absurd hlook' (by simp)
  | queryEv fd0 flags iface ec rdata ttl =>
    simp only [stepEvent] at hstep
    cases hl0 : lookupEntry s.selectExtra fd0 with
    | none =>
      simp only [hl0, Except.ok.injEq] at hstep
      subst hstep
      rw [hlook] at hlook'
      exact absurd hlook' (by simp)
    | some entry =>
      obtain ⟨h0, sd0⟩ := entry
      simp only [hl0] at hstep
      cases hkind : sd0.kind with
      | browse =>
        simp only [hkind, Except.ok.injEq] at hstep
        subst hstep
        rw [hlook] at hlook'
        exact absurd hlook' (by simp)
      | resolve i0 sn0 r0 d0 =>
        simp only [hkind, Except.ok.injEq] at hstep
        subst hstep
        rw [hlook] at hlook'
        exact absurd hlook' (by simp)
      | query i0 fn0 p0 sn0 =>
        simp only [hkind] at hstep
        unfold query_record_callback at hstep
        by_cases hec : ec = kDNSServiceErr_NoError
        · subst hec
          rw [if_pos rfl] at hstep
          cases hip : inet_ntoa rdata with
          | error k =>
            simp only [hip] at hstep
            exact absurd hstep (by simp)
          | ok ip =>
            simp only [hip] at hstep
            cases hd : deregister_service_descriptor s sd0 with
            | error err =>
              simp only [hd] at hstep
              exact absurd hstep (by simp)
            | ok s1 =>
              simp only [hd] at hstep
              unfold deregister_service_descriptor at hd
              cases hdel : tableDel s.selectExtra sd0.fd with
              | none =>
                rw [hdel] at hd
                exact absurd hd (by simp)
              | some t =>
                rw [hdel] at hd
                simp only [Except.ok.injEq] at hd
                subst hd
                have hproj := query_success_proj s sd0 flags iface fn0 1 1 rdata ttl p0
                  sn0 ip t hip hdel
                have hstep2 : query_record_callback s sd0 flags iface kDNSServiceErr_NoError
                    fn0 1 1 rdata ttl p0 sn0 = .ok s' := by
                  unfold query_record_callback
                  rw [if_pos rfl]
                  simp only [hip]
                  have hde := deregister_eq s sd0 t hdel
                  simp only [hde]
                  exact hstep
                rw [hstep2] at hproj
                simp only [Except.map, Except.ok.injEq, Prod.mk.injEq] at hproj
                obtain ⟨hsel, _, _⟩ := hproj
                have hx : lookupEntry t fd = some (handler, sd) := by
                  rw [← hsel]
                  exact hlook'
                rw [lookupEntry_tableDel s.selectExtra t sd0.fd hnd hdel fd] at hx
                by_cases hfd2 : fd = sd0.fd
                · rw [if_pos hfd2] at hx
                  exact absurd hx (by simp)
                · rw [if_neg hfd2] at hx
                  rw [hlook] at hx
                  exact absurd hx (by simp)
        · rw [if_neg hec] at hstep
          simp only [Except.ok.injEq] at hstep
          subst hstep
          rw [hlook] at hlook'
          exact absurd hlook' (by simp)

/-- Witness for C5: the browse-add event on the fresh module registers
the resolve descriptor fd 1, and the resolve-success event on `stateB`
registers the query descriptor fd 2 for the same service name. -/
theorem spec_C5_chain_order_witness :
    ((initState.selectExtra.map Prod.fst).Nodup ∧
      stepEvent initState
        (.browseEv 2 kDNSServiceErr_NoError "MAVLink" "_gcs._udp." "local." 0) = .ok stateB ∧
      lookupEntry stateB.selectExtra 1 =
        some (.processResult, ⟨1, .resolve 0 "MAVLink" "_gcs._udp." "local."⟩) ∧
      lookupEntry initState.selectExtra 1 = none ∧
      ((Event.browseEv 2 kDNSServiceErr_NoError "MAVLink" "_gcs._udp." "local." 0) =
        .browseEv
          (eventFlags (.browseEv 2 kDNSServiceErr_NoError "MAVLink" "_gcs._udp." "local." 0))
          kDNSServiceErr_NoError "MAVLink" "_gcs._udp." "local." 0 ∧
       eventFlags (.browseEv 2 kDNSServiceErr_NoError "MAVLink" "_gcs._udp." "local." 0) &&&
         kDNSServiceFlagsAdd ≠ 0)) ∧
    ((stateB.selectExtra.map Prod.fst).Nodup ∧
      stepEvent stateB
        (.resolveEv 1 0 0 kDNSServiceErr_NoError "MAVLink._gcs._udp.local."
          "mavlink.local" 14550 "") = .ok stateC ∧
      lookupEntry stateC.selectExtra 2 =
        some (.processResult, ⟨2, .query 0 "mavlink.local" 14550 "MAVLink"⟩) ∧
      lookupEntry stateB.selectExtra 2 = none ∧
      ((Event.resolveEv 1 0 0 kDNSServiceErr_NoError "MAVLink._gcs._udp.local."
          "mavlink.local" 14550 "") =
        .resolveEv
          (eventFd (.resolveEv 1 0 0 kDNSServiceErr_NoError "MAVLink._gcs._udp.local."
            "mavlink.local" 14550 ""))
          (eventFlags (.resolveEv 1 0 0 kDNSServiceErr_NoError "MAVLink._gcs._udp.local."
            "mavlink.local" 14550 ""))
          0 kDNSServiceErr_NoError
          (eventResolveFullname (.resolveEv 1 0 0 kDNSServiceErr_NoError
            "MAVLink._gcs._udp.local." "mavlink.local" 14550 ""))
          "mavlink.local" 14550
          (eventResolveTxt (.resolveEv 1 0 0 kDNSServiceErr_NoError
            "MAVLink._gcs._udp.local." "mavlink.local" 14550 "")) ∧
       registeredResolveFor stateB
         (eventFd (.resolveEv 1 0 0 kDNSServiceErr_NoError "MAVLink._gcs._udp.local."
           "mavlink.local" 14550 "")) "MAVLink" = true)) :=
  ⟨⟨by decide, rfl, rfl, by decide,
    (spec_C5_chain_order initState
      (.browseEv 2 kDNSServiceErr_NoError "MAVLink" "_gcs._udp." "local." 0) stateB 1
      .processResult ⟨1, .resolve 0 "MAVLink" "_gcs._udp." "local."⟩
      (by decide) rfl rfl (by decide)).2.1 0 "MAVLink" "_gcs._udp." "local." rfl⟩,
   ⟨by decide, rfl, rfl, by decide,
    (spec_C5_chain_order stateB
      (.resolveEv 1 0 0 kDNSServiceErr_NoError "MAVLink._gcs._udp.local."
        "mavlink.local" 14550 "") stateC 2
      .processResult ⟨2, .query 0 "mavlink.local" 14550 "MAVLink"⟩
      (by decide) rfl rfl (by decide)).2.2 0 "mavlink.local" 14550 "MAVLink" rfl⟩⟩
